import Mathlib

/-
Verification development for the RuntimeMeshComponent section data model
(Source/Public/RuntimeMeshComponent.h).  The typed create/update overloads,
their validation macros (RMC_VALIDATE_*), the dual-buffer length guards and
the batch / collision-dirty machinery are embedded as executable Lean
functions over explicit component state.  Engine collaborators (renderer,
physics cooker, scheduler, logger) appear only through their observable
effects: a synchronization trace, a log trace and a pending-bake counter.

Bodies that live in the (absent) RuntimeMeshComponent.cpp /
RuntimeMeshSection.h are modelled from the specification; each such
definition carries a doc comment starting with the words Modelled from the
spec.  Everything else is translated from the header source.
-/

set_option linter.unusedVariables false

namespace RMC

/-- Vector of three coordinates, embedding FVector.  Coordinates are modelled
as integers: only ordering, min/max and equality of coordinates matter for
the claims under study (bounding boxes), never floating-point rounding. -/
structure FVector where
  x : Int
  y : Int
  z : Int
deriving DecidableEq

/-- Axis-aligned bounding box with a validity flag, embedding FBox
(bmin/bmax corners plus the IsValid byte checked by RMC_VALIDATE_BOUNDINGBOX). -/
structure FBox where
  bmin : FVector
  bmax : FVector
  isValid : Bool
deriving DecidableEq

/-- Embeds EUpdateFrequency from RuntimeMeshCore.h. -/
inductive EUpdateFrequency where
  | Immediate
  | Average
  | Infrequent
deriving DecidableEq

/-- Generic vertex for the templated VertexType parameter: a position plus an
abstract payload standing for the remaining attributes (normals, UVs,
colors).  For dual-buffer sections the position field of the vertex-data
entries is unused, matching vertex types without a position stream. -/
structure Vertex where
  pos : FVector
  attr : Nat
deriving DecidableEq

/-- Componentwise minimum of two vectors. -/
def vmin (a b : FVector) : FVector := ⟨min a.x b.x, min a.y b.y, min a.z b.z⟩

/-- Componentwise maximum of two vectors. -/
def vmax (a b : FVector) : FVector := ⟨max a.x b.x, max a.y b.y, max a.z b.z⟩

/-- Default-constructed FBox: not valid until a point is added. -/
def invalidBox : FBox := ⟨⟨0, 0, 0⟩, ⟨0, 0, 0⟩, false⟩

/-- Adding one point to a box (the FBox += operator used during a bounds scan). -/
def growBox (b : FBox) (v : FVector) : FBox := ⟨vmin b.bmin v, vmax b.bmax v, true⟩

/-- Modelled from the spec: the linear scan over positions that computes a new
AABB when an update supplies no explicit bounding box (spec 4.2); the scan
itself lives in RuntimeMeshSection.h which is not part of the source tree. -/
def aabbOf : List FVector → FBox
  | [] => invalidBox
  | p :: ps => List.foldl growBox ⟨p, p, true⟩ ps

/-- One mesh section, embedding FRuntimeMeshSection<VertexType>.
vertexTypeTag embeds the runtime vertex-type tag checked by
GetVertexType()->EnsureEquals<VertexType>(). -/
structure MeshSection where
  bIsDualBuffer : Bool
  bIsInternalSectionType : Bool
  vertexTypeTag : Nat
  VertexBuffer : List Vertex
  PositionBuffer : List FVector
  IndexBuffer : List Int
  LocalBoundingBox : FBox
  CollisionEnabled : Bool
  UpdateFrequency : EUpdateFrequency
  bIsVisible : Bool
  bCastsShadow : Bool
deriving DecidableEq

/-- Modelled from the spec: the FRuntimeMeshSection constructor
(RuntimeMeshSection.h is not in the source tree).  A fresh section takes its
dual-buffer mode from the constructor argument, starts with empty buffers,
collision disabled, Average update frequency, and the visibility/shadow flags
at their defaults (visible, casting shadows). -/
def MeshSection.new (tag : Nat) (bWantsSeparatePositionBuffer : Bool) : MeshSection :=
  { bIsDualBuffer := bWantsSeparatePositionBuffer
    bIsInternalSectionType := false
    vertexTypeTag := tag
    VertexBuffer := []
    PositionBuffer := []
    IndexBuffer := []
    LocalBoundingBox := invalidBox
    CollisionEnabled := false
    UpdateFrequency := EUpdateFrequency.Average
    bIsVisible := true
    bCastsShadow := true }

/-- Modelled from the spec: FRuntimeMeshSection::UpdateVertexBuffer
(spec 4.2).  Replaces the vertex buffer; when no explicit box is supplied and
the section is single-buffer, the bounding box is recomputed by a linear scan
over the vertex positions (dual-buffer sections keep bounds driven by the
position buffer).  The source's boolean return value (bounds need updating,
true exactly when no box was passed) is recovered at call sites as
Option.isNone of the box argument. -/
def UpdateVertexBuffer (s : MeshSection) (verts : List Vertex) (box? : Option FBox) : MeshSection :=
  let box := match box? with
    | some b => b
    | none => if s.bIsDualBuffer then s.LocalBoundingBox else aabbOf (verts.map Vertex.pos)
  { s with VertexBuffer := verts, LocalBoundingBox := box }

/-- Modelled from the spec: FRuntimeMeshSection::UpdateVertexPositionBuffer
(spec 4.2).  Replaces the position buffer of a dual-buffer section; same
bounds policy as UpdateVertexBuffer, driven by the supplied positions. -/
def UpdateVertexPositionBuffer (s : MeshSection) (ps : List FVector) (box? : Option FBox) : MeshSection :=
  let box := match box? with
    | some b => b
    | none => aabbOf ps
  { s with PositionBuffer := ps, LocalBoundingBox := box }

/-- Modelled from the spec: FRuntimeMeshSection::UpdateIndexBuffer (spec 4.2).
Replaces the index buffer; no bounds implication and no validation of the
index count. -/
def UpdateIndexBuffer (s : MeshSection) (tris : List Int) : MeshSection :=
  { s with IndexBuffer := tris }

/-- Log messages emitted by the update overloads (the UE_LOG strings in
URuntimeMeshComponent::Log, abstracted to an enumeration). -/
inductive LogMsg where
  | dualLengthError
  | verticesEmpty
  | trianglesEmpty
  | positionsEmpty
deriving DecidableEq

/-- Observable render-proxy synchronization events handed to the external
renderer collaborator by CreateSectionInternal / UpdateSectionInternal /
EndBatchUpdates. -/
inductive SyncEvent where
  | createSync (idx : Nat) (snapshot : Option MeshSection)
  | updateSync (idx : Nat) (snapshot : Option MeshSection)
      (hadPositions hadVertices hadIndices hadBounds : Bool)
  | batchSync (idx : Nat) (snapshot : Option MeshSection)
deriving DecidableEq

/-- Embeds FRuntimeMeshBatchUpdateState: whether a batch bracket is open and
the set of section indices touched since it opened (spec 3, BatchState). -/
structure BatchUpdateState where
  bIsBatching : Bool
  touched : List Nat
deriving DecidableEq

/-- State of one URuntimeMeshComponent.  MeshSections embeds the
TArray<RuntimeMeshSectionPtr> registry (None = empty slot);
MeshCollisionSections / ConvexCollisionSections the two collision-only
arrays; syncTrace and logTrace record the calls made to the external
renderer and logger collaborators; bTickPending / pendingBakeRequests model
the one-shot pre-physics tick registration that drives BakeCollision. -/
structure Component where
  MeshSections : List (Option MeshSection)
  BatchState : BatchUpdateState
  bCollisionDirty : Bool
  bTickPending : Bool
  pendingBakeRequests : Nat
  MeshCollisionSections : List (List FVector × List Int)
  ConvexCollisionSections : List (List FVector)
  syncTrace : List SyncEvent
  logTrace : List LogMsg
deriving DecidableEq

/-- Result of one API call.  ok carries the post-state; checkFailed models a
failed check() assertion from the RMC_VALIDATE_* macros (fatal in checked UE
builds, compiled out in Shipping) — the call never completes normally;
layoutMismatch models the LayoutMismatch rejection of
GetVertexType()->EnsureEquals<VertexType>() (spec 4.1): the call returns with
the component untouched. -/
inductive CallOutcome where
  | ok (c : Component)
  | checkFailed
  | layoutMismatch
deriving DecidableEq

/-- Appends one message to the logger trace (URuntimeMeshComponent::Log). -/
def pushLog (c : Component) (m : LogMsg) : Component :=
  { c with logTrace := c.logTrace ++ [m] }

/-- Stores a section into an (in-range) registry slot. -/
def storeSection (c : Component) (i : Nat) (s : MeshSection) : Component :=
  { c with MeshSections := c.MeshSections.set i (some s) }

/-- Embeds the RMC_VALIDATE_UPDATEPARAMETERS macro: non-negative index, index
inside the sections array, slot occupied. -/
def validUpdateIndex (c : Component) (idx : Int) : Bool :=
  decide (0 ≤ idx) && decide (idx.toNat < c.MeshSections.length) &&
    (c.MeshSections.getD idx.toNat none).isSome

/-- Box argument validation (RMC_VALIDATE_BOUNDINGBOX) unified over the
with-box / without-box overload pairs: only a supplied invalid box fails. -/
def boxBad : Option FBox → Bool
  | some b => !b.isValid
  | none => false

/-- Supplied box when present, otherwise the fallback. -/
def boxOrElse (box? : Option FBox) (b : FBox) : FBox :=
  match box? with
  | some x => x
  | none => b

/-- Inserts an index into the touched set if not already present. -/
def insertIfAbsent (i : Nat) (l : List Nat) : List Nat :=
  if i ∈ l then l else l ++ [i]

/-- Modelled from the spec: CreateSectionInternal (RuntimeMeshComponent.cpp
is not in the source tree; behaviour per spec 4.4): while batching, record
the touched index and return without synchronizing; otherwise synchronize
the new section with the renderer immediately. -/
def CreateSectionInternal (c : Component) (i : Nat) : Component :=
  if c.BatchState.bIsBatching then
    { c with BatchState := { c.BatchState with touched := insertIfAbsent i c.BatchState.touched } }
  else
    { c with syncTrace := c.syncTrace ++ [SyncEvent.createSync i (c.MeshSections.getD i none)] }

/-- Modelled from the spec: UpdateSectionInternal (RuntimeMeshComponent.cpp
is not in the source tree; behaviour per spec 4.4): while batching, record
the touched index and return without synchronizing; otherwise synchronize
with flags describing exactly which parts changed. -/
def UpdateSectionInternal (c : Component) (i : Nat)
    (hadPositions hadVertices hadIndices hadBounds : Bool) : Component :=
  if c.BatchState.bIsBatching then
    { c with BatchState := { c.BatchState with touched := insertIfAbsent i c.BatchState.touched } }
  else
    { c with syncTrace := c.syncTrace ++
        [SyncEvent.updateSync i (c.MeshSections.getD i none) hadPositions hadVertices hadIndices hadBounds] }

/-- Embeds the registry growth step of CreateOrResetSection:
MeshSections.SetNum(SectionIndex + 1) when the index is past the end, filling
new slots with empty shared pointers. -/
def growSections (l : List (Option MeshSection)) (i : Nat) : List (Option MeshSection) :=
  if l.length ≤ i then l ++ List.replicate (i + 1 - l.length) none else l

/-- Final value of the section built by CreateMeshSection<VertexType>
(single buffer): fresh section from CreateOrResetSection, vertex and index
buffers assigned, collision / update-frequency flags overwritten from the
call arguments (header lines 144-157; the C++ call-site defaults are
bCreateCollision = false and UpdateFrequency = Average). -/
def createdSectionVT (tag : Nat) (V : List Vertex) (T : List Int)
    (box? : Option FBox) (coll : Bool) (freq : EUpdateFrequency) : MeshSection :=
  { UpdateIndexBuffer (UpdateVertexBuffer (MeshSection.new tag false) V box?) T with
      CollisionEnabled := coll, UpdateFrequency := freq }

/-- Final value of the section built by CreateMeshSectionDualBuffer
(position buffer assigned with the box argument, then the vertex-data buffer
with no box, then the index buffer; header lines 215-224). -/
def createdSectionDualVT (tag : Nat) (P : List FVector) (D : List Vertex) (T : List Int)
    (box? : Option FBox) (coll : Bool) (freq : EUpdateFrequency) : MeshSection :=
  { UpdateIndexBuffer
      (UpdateVertexBuffer (UpdateVertexPositionBuffer (MeshSection.new tag true) P box?) D none) T with
      CollisionEnabled := coll, UpdateFrequency := freq }

/-- Embeds the two CreateMeshSection<VertexType> overloads (header lines
135-194), merged over an optional bounding box.  RMC_VALIDATE_CREATIONPARAMETERS
(and RMC_VALIDATE_BOUNDINGBOX for the with-box overload) are check()
assertions: a violated condition yields checkFailed before any mutation. -/
def CreateMeshSection_VT (c : Component) (idx : Int) (tag : Nat)
    (Vertices : List Vertex) (Triangles : List Int) (box? : Option FBox)
    (bCreateCollision : Bool) (UpdateFrequency : EUpdateFrequency) : CallOutcome :=
  if idx < 0 then .checkFailed
  else if Vertices.length = 0 then .checkFailed
  else if Triangles.length = 0 then .checkFailed
  else if boxBad box? then .checkFailed
  else
    .ok (CreateSectionInternal
          (storeSection { c with MeshSections := growSections c.MeshSections idx.toNat }
            idx.toNat (createdSectionVT tag Vertices Triangles box? bCreateCollision UpdateFrequency))
          idx.toNat)

/-- Embeds the two CreateMeshSectionDualBuffer<VertexType> overloads (header
lines 206-264), merged over an optional bounding box.
RMC_VALIDATE_CREATIONPARAMETERS_DUALBUFFER additionally asserts that the
position array has the same length as the vertex-data array. -/
def CreateMeshSectionDualBuffer_VT (c : Component) (idx : Int) (tag : Nat)
    (VertexPositions : List FVector) (VertexData : List Vertex) (Triangles : List Int)
    (box? : Option FBox) (bCreateCollision : Bool) (UpdateFrequency : EUpdateFrequency) : CallOutcome :=
  if idx < 0 then .checkFailed
  else if VertexData.length = 0 then .checkFailed
  else if Triangles.length = 0 then .checkFailed
  else if VertexPositions.length ≠ VertexData.length then .checkFailed
  else if boxBad box? then .checkFailed
  else
    .ok (CreateSectionInternal
          (storeSection { c with MeshSections := growSections c.MeshSections idx.toNat }
            idx.toNat
            (createdSectionDualVT tag VertexPositions VertexData Triangles box? bCreateCollision UpdateFrequency))
          idx.toNat)

/-- Embeds the UpdateMeshSection<VertexType>(SectionIndex, Vertices[, BoundingBox])
overload pair (header lines 272-364), merged over an optional bounding box.
Order of operations follows the source: RMC_VALIDATE_UPDATEPARAMETERS,
RMC_VALIDATE_BOUNDINGBOX, EnsureEquals<VertexType>, the dual-buffer length
guard (logged error, call returns unapplied), then the vertices are applied
when non-empty (an empty array is logged and skipped, and then no
UpdateSectionInternal runs). -/
def UpdateMeshSection_V (c : Component) (idx : Int) (callerTag : Nat)
    (Vertices : List Vertex) (box? : Option FBox) : CallOutcome :=
  if validUpdateIndex c idx then
    if boxBad box? then .checkFailed
    else
      match c.MeshSections.getD idx.toNat none with
      | none => .checkFailed
      | some sec =>
        if sec.vertexTypeTag ≠ callerTag then .layoutMismatch
        else if sec.bIsDualBuffer ∧ Vertices.length ≠ sec.VertexBuffer.length then
          .ok (pushLog c .dualLengthError)
        else if 0 < Vertices.length then
          .ok (UpdateSectionInternal
                (storeSection c idx.toNat (UpdateVertexBuffer sec Vertices box?))
                idx.toNat false true false box?.isNone)
        else
          .ok (pushLog c .verticesEmpty)
  else .checkFailed

/-- Embeds the UpdateMeshSection<VertexType>(SectionIndex, Vertices, Triangles
[, BoundingBox]) overload pair (header lines 373-490), merged over an
optional bounding box.  Vertices and Triangles are independently optional;
each empty part is logged and skipped; UpdateSectionInternal runs only when
at least one part was applied. -/
def UpdateMeshSection_V_Tri (c : Component) (idx : Int) (callerTag : Nat)
    (Vertices : List Vertex) (Triangles : List Int) (box? : Option FBox) : CallOutcome :=
  if validUpdateIndex c idx then
    if boxBad box? then .checkFailed
    else
      match c.MeshSections.getD idx.toNat none with
      | none => .checkFailed
      | some sec =>
        if sec.vertexTypeTag ≠ callerTag then .layoutMismatch
        else if sec.bIsDualBuffer ∧ Vertices.length ≠ sec.VertexBuffer.length then
          .ok (pushLog c .dualLengthError)
        else if 0 < Vertices.length then
          if 0 < Triangles.length then
            .ok (UpdateSectionInternal
                  (storeSection c idx.toNat
                    (UpdateIndexBuffer (UpdateVertexBuffer sec Vertices box?) Triangles))
                  idx.toNat false true true box?.isNone)
          else
            .ok (UpdateSectionInternal
                  (storeSection (pushLog c .trianglesEmpty) idx.toNat
                    (UpdateVertexBuffer sec Vertices box?))
                  idx.toNat false true false box?.isNone)
        else
          if 0 < Triangles.length then
            .ok (UpdateSectionInternal
                  (storeSection (pushLog c .verticesEmpty) idx.toNat
                    (UpdateIndexBuffer sec Triangles))
                  idx.toNat false false true false)
          else
            .ok (pushLog (pushLog c .verticesEmpty) .trianglesEmpty)
  else .checkFailed

/-- Embeds the dual-buffer UpdateMeshSection<VertexType>(SectionIndex,
VertexPositions, VertexData[, BoundingBox]) overload pair (header lines
500-621), merged over an optional bounding box.
RMC_VALIDATE_UPDATEPARAMETERS_DUALBUFFER additionally asserts the section is
dual-buffer.  The dual-buffer guard is the literal conjunction from the
source (lines 515-517): the call is rejected only when the vertex-data
length differs from the stored vertex buffer AND the position length differs
from the vertex-data length. -/
def UpdateMeshSection_P_V (c : Component) (idx : Int) (callerTag : Nat)
    (VertexPositions : List FVector) (VertexData : List Vertex) (box? : Option FBox) : CallOutcome :=
  if validUpdateIndex c idx then
    match c.MeshSections.getD idx.toNat none with
    | none => .checkFailed
    | some sec =>
      if sec.bIsDualBuffer then
        if boxBad box? then .checkFailed
        else if sec.vertexTypeTag ≠ callerTag then .layoutMismatch
        else if sec.bIsDualBuffer ∧ VertexData.length ≠ sec.VertexBuffer.length ∧
                VertexPositions.length ≠ VertexData.length then
          .ok (pushLog c .dualLengthError)
        else if 0 < VertexPositions.length then
          if 0 < VertexData.length then
            .ok (UpdateSectionInternal
                  (storeSection c idx.toNat
                    (UpdateVertexBuffer (UpdateVertexPositionBuffer sec VertexPositions box?) VertexData none))
                  idx.toNat true true false box?.isNone)
          else
            .ok (UpdateSectionInternal
                  (storeSection (pushLog c .verticesEmpty) idx.toNat
                    (UpdateVertexPositionBuffer sec VertexPositions box?))
                  idx.toNat true false false box?.isNone)
        else
          if 0 < VertexData.length then
            .ok (UpdateSectionInternal
                  (storeSection (pushLog c .positionsEmpty) idx.toNat
                    (UpdateVertexBuffer sec VertexData none))
                  idx.toNat false true false false)
          else
            .ok (pushLog (pushLog c .positionsEmpty) .verticesEmpty)
      else .checkFailed
  else .checkFailed

/-- Embeds the dual-buffer UpdateMeshSection<VertexType>(SectionIndex,
VertexPositions, VertexData, Triangles[, BoundingBox]) overload pair (header
lines 631-777), merged over an optional bounding box; same guard as the
three-argument dual overload, with Triangles as a third independently
optional part. -/
def UpdateMeshSection_P_V_Tri (c : Component) (idx : Int) (callerTag : Nat)
    (VertexPositions : List FVector) (VertexData : List Vertex) (Triangles : List Int)
    (box? : Option FBox) : CallOutcome :=
  if validUpdateIndex c idx then
    match c.MeshSections.getD idx.toNat none with
    | none => .checkFailed
    | some sec =>
      if sec.bIsDualBuffer then
        if boxBad box? then .checkFailed
        else if sec.vertexTypeTag ≠ callerTag then .layoutMismatch
        else if sec.bIsDualBuffer ∧ VertexData.length ≠ sec.VertexBuffer.length ∧
                VertexPositions.length ≠ VertexData.length then
          .ok (pushLog c .dualLengthError)
        else if 0 < VertexPositions.length then
          if 0 < VertexData.length then
            if 0 < Triangles.length then
              .ok (UpdateSectionInternal
                    (storeSection c idx.toNat
                      (UpdateIndexBuffer
                        (UpdateVertexBuffer (UpdateVertexPositionBuffer sec VertexPositions box?) VertexData none)
                        Triangles))
                    idx.toNat true true true box?.isNone)
            else
              .ok (UpdateSectionInternal
                    (storeSection (pushLog c .trianglesEmpty) idx.toNat
                      (UpdateVertexBuffer (UpdateVertexPositionBuffer sec VertexPositions box?) VertexData none))
                    idx.toNat true true false box?.isNone)
          else
            if 0 < Triangles.length then
              .ok (UpdateSectionInternal
                    (storeSection (pushLog c .verticesEmpty) idx.toNat
                      (UpdateIndexBuffer (UpdateVertexPositionBuffer sec VertexPositions box?) Triangles))
                    idx.toNat true false true box?.isNone)
            else
              .ok (UpdateSectionInternal
                    (storeSection (pushLog (pushLog c .verticesEmpty) .trianglesEmpty) idx.toNat
                      (UpdateVertexPositionBuffer sec VertexPositions box?))
                    idx.toNat true false false box?.isNone)
        else
          if 0 < VertexData.length then
            if 0 < Triangles.length then
              .ok (UpdateSectionInternal
                    (storeSection (pushLog c .positionsEmpty) idx.toNat
                      (UpdateIndexBuffer (UpdateVertexBuffer sec VertexData none) Triangles))
                    idx.toNat false true true false)
            else
              .ok (UpdateSectionInternal
                    (storeSection (pushLog (pushLog c .positionsEmpty) .trianglesEmpty) idx.toNat
                      (UpdateVertexBuffer sec VertexData none))
                    idx.toNat false true false false)
          else
            if 0 < Triangles.length then
              .ok (UpdateSectionInternal
                    (storeSection (pushLog (pushLog c .positionsEmpty) .verticesEmpty) idx.toNat
                      (UpdateIndexBuffer sec Triangles))
                    idx.toNat false false true false)
            else
              .ok (pushLog (pushLog (pushLog c .positionsEmpty) .verticesEmpty) .trianglesEmpty)
      else .checkFailed
  else .checkFailed

/-- Modelled from the spec: DoesSectionExist (body in the absent .cpp; spec 3,
SectionRegistry): true exactly when the index is non-negative and the slot
holds a live section (out-of-range reads the None default). -/
def DoesSectionExist (c : Component) (idx : Int) : Bool :=
  decide (0 ≤ idx) && (c.MeshSections.getD idx.toNat none).isSome

/-- Modelled from the spec: GetSectionBoundingBox (body in the absent .cpp):
returns the stored section's bounding box when the section exists. -/
def GetSectionBoundingBox (c : Component) (idx : Int) : Option FBox :=
  if 0 ≤ idx then
    match c.MeshSections.getD idx.toNat none with
    | some s => some s.LocalBoundingBox
    | none => none
  else none

/-- Modelled from the spec: FRuntimeMeshBatchUpdateState::StartBatch — enters
the Batching state with an empty touched set (spec 4.4). -/
def BatchUpdateState.StartBatch (b : BatchUpdateState) : BatchUpdateState :=
  { bIsBatching := true, touched := [] }

/-- Embeds BeginBatchUpdates (header lines 1022-1025): delegates to
BatchState.StartBatch. -/
def BeginBatchUpdates (c : Component) : Component :=
  { c with BatchState := c.BatchState.StartBatch }

/-- Modelled from the spec: EndBatchUpdates (body in the absent .cpp; spec
4.4): iterates the touched-index set exactly once, performing one render
synchronization per touched section using that section's current data, then
returns to the Idle state.  An unmatched call (not batching) is a no-op. -/
def EndBatchUpdates (c : Component) : Component :=
  if c.BatchState.bIsBatching then
    { c with
        syncTrace := c.syncTrace ++
          c.BatchState.touched.map (fun i => SyncEvent.batchSync i (c.MeshSections.getD i none)),
        BatchState := { bIsBatching := false, touched := [] } }
  else c

/-- Modelled from the spec: MarkCollisionDirty (body in the absent .cpp; spec
4.5 and the header comment at lines 38-41): sets the dirty flag and, only if
the one-frame pre-physics tick is not already registered, registers it —
issuing one bake request to the external scheduler.  pendingBakeRequests
counts requests issued but not yet consumed by a bake. -/
def MarkCollisionDirty (c : Component) : Component :=
  if c.bTickPending then { c with bCollisionDirty := true }
  else
    { c with
        bCollisionDirty := true
        bTickPending := true
        pendingBakeRequests := c.pendingBakeRequests + 1 }

/-- Modelled from the spec: BakeCollision success path (spec 4.5): cooking
consumes the pending request and clears the dirty flag. -/
def BakeCollision (c : Component) : Component :=
  { c with bCollisionDirty := false, bTickPending := false, pendingBakeRequests := 0 }

/-- One collision-affecting mutation before the next bake (spec 4.5): a
render-section create/clear/toggle with collision enabled, a convex-hull
add/clear, or a collision-only section set.  Each variant performs its state
change and then calls MarkCollisionDirty, as every corresponding entry point
does. -/
inductive CollisionMut where
  | sectionDirty
  | addConvex (verts : List FVector)
  | clearConvexes
  | setCollisionSection (i : Nat) (verts : List FVector) (tris : List Int)
deriving DecidableEq

/-- Growth-and-set for the collision-only section array
(SetMeshCollisionSection grows the array to the requested index). -/
def setCollisionSectionAt (l : List (List FVector × List Int)) (i : Nat)
    (v : List FVector × List Int) : List (List FVector × List Int) :=
  (if l.length ≤ i then l ++ List.replicate (i + 1 - l.length) ([], []) else l).set i v

/-- Modelled from the spec: the collision-affecting entry points
(SetMeshSectionCollisionEnabled, AddCollisionConvexMesh,
ClearCollisionConvexMeshes, SetMeshCollisionSection; bodies in the absent
.cpp): each applies its own state change and ends by calling
MarkCollisionDirty. -/
def applyCollisionMut (c : Component) : CollisionMut → Component
  | .sectionDirty => MarkCollisionDirty c
  | .addConvex vs => MarkCollisionDirty { c with ConvexCollisionSections := c.ConvexCollisionSections ++ [vs] }
  | .clearConvexes => MarkCollisionDirty { c with ConvexCollisionSections := [] }
  | .setCollisionSection i vs ts =>
      MarkCollisionDirty { c with MeshCollisionSections := setCollisionSectionAt c.MeshCollisionSections i (vs, ts) }

/-- Runs a sequence of collision-affecting mutations. -/
def runCollisionMuts (c : Component) (ms : List CollisionMut) : Component :=
  ms.foldl applyCollisionMut c

/-- One batched section mutation, abstracted to the data every create/update
entry point hands to CreateSectionInternal / UpdateSectionInternal while a
batch is open: the section index it touches and the section contents it
leaves in the registry slot. -/
structure BatchMut where
  idx : Nat
  newSec : MeshSection
deriving DecidableEq

/-- Applies one batched mutation: stores the section data and finalizes
through UpdateSectionInternal exactly as the update overloads do. -/
def applyMut (c : Component) (m : BatchMut) : Component :=
  UpdateSectionInternal (storeSection c m.idx m.newSec) m.idx true true true true

/-- The touched-index set accumulated by a mutation sequence. -/
def touchedOf (ms : List BatchMut) : List Nat :=
  ms.foldl (fun a m => insertIfAbsent m.idx a) []

/-- Contents of the last mutation in the list that touches index i, if any. -/
def lastMutFor : List BatchMut → Nat → Option MeshSection
  | [], _ => none
  | m :: ms, i =>
    match lastMutFor ms i with
    | some s => some s
    | none => if m.idx = i then some m.newSec else none

/-- Component state reached mid-batch: beginBatch followed by the mutations. -/
def batchMid (c : Component) (ms : List BatchMut) : Component :=
  ms.foldl applyMut (BeginBatchUpdates c)

/-- Component state after the whole beginBatch; mutations; endBatch bracket. -/
def batchEnd (c : Component) (ms : List BatchMut) : Component :=
  EndBatchUpdates (batchMid c ms)

/-- Post-state of a call, with a fallback for the non-ok outcomes. -/
def outcomeState (r : CallOutcome) (d : Component) : Component :=
  match r with
  | .ok c => c
  | _ => d

/-- Projection used by concrete counterexamples: the stored position-buffer
and vertex-buffer lengths of section i after a call. -/
def bufferLengthsAt (r : CallOutcome) (i : Nat) : Option (Nat × Nat) :=
  match r with
  | .ok c =>
    match c.MeshSections.getD i none with
    | some s => some (s.PositionBuffer.length, s.VertexBuffer.length)
    | none => none
  | _ => none

/-- Projection used by concrete counterexamples: the stored index buffer of
section i after a call. -/
def indexBufferAt (r : CallOutcome) (i : Nat) : Option (List Int) :=
  match r with
  | .ok c =>
    match c.MeshSections.getD i none with
    | some s => some s.IndexBuffer
    | none => none
  | _ => none

/-- Projection used by concrete counterexamples: the stored position buffer of
section i after a call. -/
def positionBufferAt (r : CallOutcome) (i : Nat) : Option (List FVector) :=
  match r with
  | .ok c =>
    match c.MeshSections.getD i none with
    | some s => some s.PositionBuffer
    | none => none
  | _ => none

/-- Component with no sections, idle batch state, clean collision state. -/
def emptyComp : Component :=
  { MeshSections := []
    BatchState := { bIsBatching := false, touched := [] }
    bCollisionDirty := false
    bTickPending := false
    pendingBakeRequests := 0
    MeshCollisionSections := []
    ConvexCollisionSections := []
    syncTrace := []
    logTrace := [] }

/-- Origin position. -/
def p0 : FVector := ⟨0, 0, 0⟩

/-- Second sample position. -/
def pX : FVector := ⟨1, 2, 3⟩

/-- Sample vertex. -/
def v0 : Vertex := ⟨p0, 0⟩

/-- Sample vertex with a different payload. -/
def v1 : Vertex := ⟨pX, 1⟩

/-- Reachable state: a dual-buffer section at index 0 with three positions and
three vertex-data entries, built through CreateMeshSectionDualBuffer. -/
def dualComp3 : Component :=
  outcomeState
    (CreateMeshSectionDualBuffer_VT emptyComp 0 0 [p0, p0, p0] [v0, v0, v0] [0, 1, 2] none false .Average)
    emptyComp

/-- Reachable state: a dual-buffer section at index 0 with one position and
one vertex-data entry. -/
def dualComp1 : Component :=
  outcomeState
    (CreateMeshSectionDualBuffer_VT emptyComp 0 0 [p0] [v0] [0, 0, 0] none false .Average)
    emptyComp

/-- Reachable state: a single-buffer section at index 0 with one vertex and
index buffer 0,0,0. -/
def singleComp : Component :=
  outcomeState
    (CreateMeshSection_VT emptyComp 0 0 [v0] [0, 0, 0] none false .Average)
    emptyComp

/-- Section contents stored by the dualComp1 fixture. -/
def sDual1 : MeshSection := createdSectionDualVT 0 [p0] [v0] [0, 0, 0] none false .Average

/-- Section contents stored by the singleComp fixture. -/
def sSingle1 : MeshSection := createdSectionVT 0 [v0] [0, 0, 0] none false .Average

/-- Reachable state with live sections at indices 0 and 1. -/
def twoComp : Component :=
  outcomeState (CreateMeshSection_VT singleComp 1 0 [v1] [0, 0, 0] none false .Average) emptyComp

/-- Sample batch: two mutations of section 0 followed by one of section 1. -/
def msEx : List BatchMut := [⟨0, sSingle1⟩, ⟨0, sDual1⟩, ⟨1, sSingle1⟩]

lemma getD_set_self {α : Type} (l : List α) (i : Nat) (a d : α) (h : i < l.length) :
    (l.set i a).getD i d = a := by
  simp [List.getD_eq_getElem?_getD, List.getElem?_set_self h]

lemma getD_set_ne {α : Type} (l : List α) (i j : Nat) (a d : α) (h : j ≠ i) :
    (l.set j a).getD i d = l.getD i d := by
  simp [List.getD_eq_getElem?_getD, List.getElem?_set_ne h]

lemma validUpdateIndex_lt (c : Component) (idx : Int) (h : validUpdateIndex c idx = true) :
    idx.toNat < c.MeshSections.length := by
  simp only [validUpdateIndex, Bool.and_eq_true, decide_eq_true_eq] at h
  exact h.1.2

lemma UpdateSectionInternal_MeshSections (c : Component) (i : Nat) (a b d e : Bool) :
    (UpdateSectionInternal c i a b d e).MeshSections = c.MeshSections := by
  unfold UpdateSectionInternal
  split <;> rfl

lemma CreateSectionInternal_MeshSections (c : Component) (i : Nat) :
    (CreateSectionInternal c i).MeshSections = c.MeshSections := by
  unfold CreateSectionInternal
  split <;> rfl

lemma pushLog_MeshSections (c : Component) (m : LogMsg) :
    (pushLog c m).MeshSections = c.MeshSections := rfl

lemma storeSection_getD (c : Component) (i : Nat) (s : MeshSection)
    (h : i < c.MeshSections.length) :
    (storeSection c i s).MeshSections.getD i none = some s :=
  getD_set_self c.MeshSections i (some s) none h

lemma growSections_lt (l : List (Option MeshSection)) (i : Nat) :
    i < (growSections l i).length := by
  unfold growSections
  split
  · simp only [List.length_append, List.length_replicate]
    omega
  · omega

lemma createVT_ok (c : Component) (idx : Int) (tag : Nat) (V : List Vertex) (T : List Int)
    (box? : Option FBox) (coll : Bool) (freq : EUpdateFrequency)
    (h0 : 0 ≤ idx) (hV : V ≠ []) (hT : T ≠ []) (hB : boxBad box? = false) :
    ∃ c', CreateMeshSection_VT c idx tag V T box? coll freq = .ok c'
      ∧ c'.MeshSections.getD idx.toNat none = some (createdSectionVT tag V T box? coll freq) := by
  unfold CreateMeshSection_VT
  rw [if_neg (by omega), if_neg (by simpa [List.length_eq_zero] using hV),
    if_neg (by simpa [List.length_eq_zero] using hT), if_neg (by simp [hB])]
  refine ⟨_, rfl, ?_⟩
  rw [CreateSectionInternal_MeshSections]
  exact storeSection_getD _ _ _ (growSections_lt c.MeshSections idx.toNat)

lemma createDualVT_ok (c : Component) (idx : Int) (tag : Nat) (P : List FVector)
    (D : List Vertex) (T : List Int) (box? : Option FBox) (coll : Bool) (freq : EUpdateFrequency)
    (h0 : 0 ≤ idx) (hD : D ≠ []) (hT : T ≠ []) (hPD : P.length = D.length)
    (hB : boxBad box? = false) :
    ∃ c', CreateMeshSectionDualBuffer_VT c idx tag P D T box? coll freq = .ok c'
      ∧ c'.MeshSections.getD idx.toNat none
          = some (createdSectionDualVT tag P D T box? coll freq) := by
  unfold CreateMeshSectionDualBuffer_VT
  rw [if_neg (by omega), if_neg (by simpa [List.length_eq_zero] using hD),
    if_neg (by simpa [List.length_eq_zero] using hT), if_neg (by simp [hPD]),
    if_neg (by simp [hB])]
  refine ⟨_, rfl, ?_⟩
  rw [CreateSectionInternal_MeshSections]
  exact storeSection_getD _ _ _ (growSections_lt c.MeshSections idx.toNat)

lemma createdSectionVT_box (tag : Nat) (V : List Vertex) (T : List Int) (box? : Option FBox)
    (coll : Bool) (freq : EUpdateFrequency) :
    (createdSectionVT tag V T box? coll freq).LocalBoundingBox
      = boxOrElse box? (aabbOf (V.map Vertex.pos)) := by
  cases box? <;> rfl

lemma createdSectionDualVT_box (tag : Nat) (P : List FVector) (D : List Vertex) (T : List Int)
    (box? : Option FBox) (coll : Bool) (freq : EUpdateFrequency) :
    (createdSectionDualVT tag P D T box? coll freq).LocalBoundingBox
      = boxOrElse box? (aabbOf P) := by
  cases box? <;> rfl

lemma doesSectionExist_of_getD (c : Component) (idx : Int) (s : MeshSection)
    (h0 : 0 ≤ idx) (h : c.MeshSections.getD idx.toNat none = some s) :
    DoesSectionExist c idx = true := by
  unfold DoesSectionExist
  rw [h]
  simp [h0]

lemma getSectionBoundingBox_of_getD (c : Component) (idx : Int) (s : MeshSection)
    (h0 : 0 ≤ idx) (h : c.MeshSections.getD idx.toNat none = some s) :
    GetSectionBoundingBox c idx = some s.LocalBoundingBox := by
  unfold GetSectionBoundingBox
  rw [if_pos h0, h]

/-- C1: the claim states that after any dual-buffer update that is not
rejected, PositionBuffer and VertexBuffer have equal lengths, the guard
rejecting every call that would break this.  The code violates it: on a
dual-buffer section holding 3 positions and 3 vertex-data entries, the call
UpdateMeshSection(positions of length 5, vertexData of length 3) passes the
conjunctive guard of header lines 515-517 (vertexData length equals the
stored vertex buffer length, so the first mismatch conjunct is false), is
applied, and leaves the parallel buffers at lengths 5 and 3. -/
theorem C1_dual_guard_admits_mismatched_lengths :
    bufferLengthsAt
      (UpdateMeshSection_P_V dualComp3 0 0 [p0, p0, p0, p0, p0] [v0, v0, v0] none) 0
      = some (5, 3) := by
  decide

/-- C2 counterexample: creating with a negative section index does not
complete as a logged, locally recoverable no-op; RMC_VALIDATE_CREATIONPARAMETERS
is a check() assertion, so the call ends in checkFailed (fatal in checked
builds; in Shipping builds the validation is compiled out) — in particular it
does not return normally with the component state unchanged, which ok
emptyComp would be. -/
theorem C2_counterexample :
    CreateMeshSection_VT emptyComp (-1) 0 [v0] [0, 1, 2] none false .Average = .checkFailed
    ∧ CreateMeshSection_VT emptyComp (-1) 0 [v0] [0, 1, 2] none false .Average
        ≠ .ok emptyComp := by
  decide

/-- C2 amended: every create call with a negative section index, an empty
vertex array, an empty triangle array, an invalid bounding box, or (for
dual-buffer creation) a position array whose length differs from the
vertex-data array is stopped before any mutation by a failed check()
assertion: the component state is not touched, but the rejection is a fatal
assertion in checked builds (and no validation at all in Shipping builds),
not a logger report, and the error is not locally recoverable. -/
theorem C2_amended (c : Component) (idx : Int) (tag : Nat)
    (V D : List Vertex) (P : List FVector) (T : List Int) (box? : Option FBox)
    (coll : Bool) (freq : EUpdateFrequency)
    (h1 : idx < 0 ∨ V = [] ∨ T = [] ∨ boxBad box? = true)
    (h2 : idx < 0 ∨ D = [] ∨ T = [] ∨ P.length ≠ D.length ∨ boxBad box? = true) :
    CreateMeshSection_VT c idx tag V T box? coll freq = .checkFailed
    ∧ CreateMeshSectionDualBuffer_VT c idx tag P D T box? coll freq = .checkFailed := by
  constructor
  · unfold CreateMeshSection_VT
    split_ifs with g1 g2 g3 g4
    any_goals rfl
    rcases h1 with h | h | h | h <;> simp_all
  · unfold CreateMeshSectionDualBuffer_VT
    split_ifs with g1 g2 g3 g4 g5
    any_goals rfl
    rcases h2 with h | h | h | h | h <;> simp_all

/-- C2 amended witness: concrete instance at a negative index. -/
theorem C2_amended_witness :
    ((-1 : Int) < 0 ∨ ([v0] : List Vertex) = [] ∨ ([0, 1, 2] : List Int) = [] ∨ boxBad none = true)
    ∧ CreateMeshSection_VT emptyComp (-1) 0 [v0] [0, 1, 2] none false .Average = .checkFailed
    ∧ CreateMeshSectionDualBuffer_VT emptyComp (-1) 0 [p0] [v0] [0, 1, 2] none false .Average
        = .checkFailed :=
  ⟨Or.inl (by decide),
    C2_amended emptyComp (-1) 0 [v0] [v0] [p0] [0, 1, 2] none false .Average
      (Or.inl (by decide)) (Or.inl (by decide))⟩

/-- C3 counterexample: on the dual-buffer section holding one position and
one vertex-data entry, the call UpdateMeshSection(positions = the single
point pX, vertexData = empty) supplies a non-empty position array, yet the
position buffer is left at its prior value: the empty vertex-data array
makes the dual-buffer length guard fire (0 differs from the stored 1, and 1
differs from 0), so the whole call is rejected instead of skipping the empty
part and applying the positions. -/
theorem C3_counterexample :
    positionBufferAt (UpdateMeshSection_P_V dualComp1 0 0 [pX] [] none) 0 = some [p0]
    ∧ ([pX] : List FVector) ≠ [] ∧ pX ≠ p0 := by
  decide

/-- C3 amended: supplying an empty array to an update never shrinks or
clears the corresponding stored buffer.  When the dual-buffer length guard
does not fire, the empty part is skipped while every other non-empty
supplied part is applied; but a dual-buffer multi-array call whose supplied
lengths trip the guard (which an empty vertex-data array combined with a
non-empty position array always does on a populated section) is rejected
wholesale, applying none of its parts.  Stated for the vertices+triangles
overload pair and for the dual positions+vertexData overload pair. -/
theorem C3_amended (c : Component) (idx : Int) (tag : Nat)
    (V D : List Vertex) (P : List FVector) (T : List Int) (box? : Option FBox) (s : MeshSection)
    (hvalid : validUpdateIndex c idx = true)
    (hbox : boxBad box? = false)
    (hsec : c.MeshSections.getD idx.toNat none = some s)
    (htag : s.vertexTypeTag = tag) :
    (∀ c', UpdateMeshSection_V_Tri c idx tag V T box? = .ok c' →
      ∃ s', c'.MeshSections.getD idx.toNat none = some s'
        ∧ (V = [] → s'.VertexBuffer = s.VertexBuffer)
        ∧ (T = [] → s'.IndexBuffer = s.IndexBuffer)
        ∧ (¬(s.bIsDualBuffer = true ∧ V.length ≠ s.VertexBuffer.length) →
            (V ≠ [] → s'.VertexBuffer = V) ∧ (T ≠ [] → s'.IndexBuffer = T)))
    ∧ (s.bIsDualBuffer = true →
      ∀ c', UpdateMeshSection_P_V c idx tag P D box? = .ok c' →
        ∃ s', c'.MeshSections.getD idx.toNat none = some s'
          ∧ (P = [] → s'.PositionBuffer = s.PositionBuffer)
          ∧ (D = [] → s'.VertexBuffer = s.VertexBuffer)
          ∧ (¬(s.bIsDualBuffer = true ∧ D.length ≠ s.VertexBuffer.length ∧
                P.length ≠ D.length) →
              (P ≠ [] → s'.PositionBuffer = P) ∧ (D ≠ [] → s'.VertexBuffer = D))) := by
  have hlen : idx.toNat < c.MeshSections.length := validUpdateIndex_lt c idx hvalid
  constructor
  · intro c' hok
    unfold UpdateMeshSection_V_Tri at hok
    simp only [hvalid, hbox, hsec, htag, ne_eq, not_true_eq_false, if_false, if_true,
      Bool.false_eq_true, ite_true, ite_false] at hok
    by_cases hg : s.bIsDualBuffer = true ∧ V.length ≠ s.VertexBuffer.length
    · rw [if_pos hg] at hok
      injection hok with h
      subst h
      refine ⟨s, ?_, fun _ => rfl, fun _ => rfl, fun hng => absurd hg hng⟩
      exact hsec
    · rw [if_neg hg] at hok
      by_cases hV : 0 < V.length
      · rw [if_pos hV] at hok
        by_cases hT : 0 < T.length
        · rw [if_pos hT] at hok
          injection hok with h
          subst h
          refine ⟨UpdateIndexBuffer (UpdateVertexBuffer s V box?) T, ?_, ?_, ?_, ?_⟩
          · rw [UpdateSectionInternal_MeshSections]
            exact storeSection_getD _ _ _ hlen
          · intro hVe
            exact absurd hV (by simp [hVe])
          · intro hTe
            exact absurd hT (by simp [hTe])
          · exact fun _ => ⟨fun _ => rfl, fun _ => rfl⟩
        · rw [if_neg hT] at hok
          injection hok with h
          subst h
          refine ⟨UpdateVertexBuffer s V box?, ?_, ?_, fun _ => rfl, ?_⟩
          · rw [UpdateSectionInternal_MeshSections]
            exact storeSection_getD _ _ _ hlen
          · intro hVe
            exact absurd hV (by simp [hVe])
          · exact fun _ => ⟨fun _ => rfl, fun hTne => absurd (List.length_eq_zero.mp (by omega)) hTne⟩
      · rw [if_neg hV] at hok
        have hVe : V = [] := List.length_eq_zero.mp (by omega)
        by_cases hT : 0 < T.length
        · rw [if_pos hT] at hok
          injection hok with h
          subst h
          refine ⟨UpdateIndexBuffer s T, ?_, fun _ => rfl, ?_, ?_⟩
          · rw [UpdateSectionInternal_MeshSections]
            exact storeSection_getD _ _ _ hlen
          · intro hTe
            exact absurd hT (by simp [hTe])
          · exact fun _ => ⟨fun hVne => absurd hVe hVne, fun _ => rfl⟩
        · rw [if_neg hT] at hok
          have hTe : T = [] := List.length_eq_zero.mp (by omega)
          injection hok with h
          subst h
          refine ⟨s, hsec, fun _ => rfl, fun _ => rfl, ?_⟩
          exact fun _ => ⟨fun hVne => absurd hVe hVne, fun hTne => absurd hTe hTne⟩
  · intro hdual c' hok
    unfold UpdateMeshSection_P_V at hok
    simp only [hvalid, hbox, hsec, htag, hdual, ne_eq, not_true_eq_false, if_false, if_true,
      Bool.false_eq_true, ite_true, ite_false, true_and] at hok
    by_cases hg : ¬D.length = s.VertexBuffer.length ∧ ¬P.length = D.length
    · rw [if_pos hg] at hok
      injection hok with h
      subst h
      refine ⟨s, hsec, fun _ => rfl, fun _ => rfl, fun hng => absurd ⟨hdual, hg.1, hg.2⟩ hng⟩
    · rw [if_neg hg] at hok
      by_cases hP : 0 < P.length
      · rw [if_pos hP] at hok
        by_cases hD : 0 < D.length
        · rw [if_pos hD] at hok
          injection hok with h
          subst h
          refine ⟨UpdateVertexBuffer (UpdateVertexPositionBuffer s P box?) D none, ?_, ?_, ?_, ?_⟩
          · rw [UpdateSectionInternal_MeshSections]
            exact storeSection_getD _ _ _ hlen
          · intro hPe
            exact absurd hP (by simp [hPe])
          · intro hDe
            exact absurd hD (by simp [hDe])
          · exact fun _ => ⟨fun _ => rfl, fun _ => rfl⟩
        · rw [if_neg hD] at hok
          injection hok with h
          subst h
          refine ⟨UpdateVertexPositionBuffer s P box?, ?_, ?_, fun _ => rfl, ?_⟩
          · rw [UpdateSectionInternal_MeshSections]
            exact storeSection_getD _ _ _ hlen
          · intro hPe
            exact absurd hP (by simp [hPe])
          · exact fun _ => ⟨fun _ => rfl,
              fun hDne => absurd (List.length_eq_zero.mp (by omega)) hDne⟩
      · rw [if_neg hP] at hok
        have hPe : P = [] := List.length_eq_zero.mp (by omega)
        by_cases hD : 0 < D.length
        · rw [if_pos hD] at hok
          injection hok with h
          subst h
          refine ⟨UpdateVertexBuffer s D none, ?_, fun _ => rfl, ?_, ?_⟩
          · rw [UpdateSectionInternal_MeshSections]
            exact storeSection_getD _ _ _ hlen
          · intro hDe
            exact absurd hD (by simp [hDe])
          · exact fun _ => ⟨fun hPne => absurd hPe hPne, fun _ => rfl⟩
        · rw [if_neg hD] at hok
          have hDe : D = [] := List.length_eq_zero.mp (by omega)
          injection hok with h
          subst h
          refine ⟨s, hsec, fun _ => rfl, fun _ => rfl, ?_⟩
          exact fun _ => ⟨fun hPne => absurd hPe hPne, fun hDne => absurd hDe hDne⟩

/-- C3 amended witness: on the dual-buffer fixture, updating with one new
vertex-data entry (same length as stored) and empty triangles applies the
vertex data and leaves the index buffer unchanged. -/
theorem C3_amended_witness :
    ∃ s', (outcomeState (UpdateMeshSection_V_Tri dualComp1 0 0 [v1] [] none) emptyComp).MeshSections.getD
        (0 : Int).toNat none = some s'
      ∧ (([v1] : List Vertex) = [] → s'.VertexBuffer = sDual1.VertexBuffer)
      ∧ (([] : List Int) = [] → s'.IndexBuffer = sDual1.IndexBuffer)
      ∧ (¬(sDual1.bIsDualBuffer = true ∧ ([v1] : List Vertex).length ≠ sDual1.VertexBuffer.length) →
          (([v1] : List Vertex) ≠ [] → s'.VertexBuffer = [v1])
          ∧ (([] : List Int) ≠ [] → s'.IndexBuffer = [])) :=
  (C3_amended dualComp1 0 0 [v1] [] [] [] none sDual1
      (by decide) (by decide) (by decide) (by decide)).1
    (outcomeState (UpdateMeshSection_V_Tri dualComp1 0 0 [v1] [] none) emptyComp)
    (by decide)

/-- C4 counterexample: updating the existing section (prior index buffer
0,0,0) with the index buffer consisting of the single entry 7 — length 1, not
a multiple of 3 — is not rejected: the stored index buffer becomes that
array. -/
theorem C4_counterexample :
    indexBufferAt (UpdateMeshSection_V_Tri singleComp 0 0 [] [7] none) 0 = some [7]
    ∧ indexBufferAt (CallOutcome.ok singleComp) 0 = some [0, 0, 0]
    ∧ ([7] : List Int).length % 3 ≠ 0 := by
  decide

/-- C4 amended: no update path validates that the index count is a multiple
of 3 (the header only documents it as a caller contract).  Any non-empty
Triangles array supplied to an update that passes the index/type/dual-buffer
guards replaces the stored index buffer verbatim, whatever its length. -/
theorem C4_amended (c : Component) (idx : Int) (tag : Nat) (V : List Vertex) (T : List Int)
    (box? : Option FBox) (s : MeshSection)
    (hvalid : validUpdateIndex c idx = true)
    (hbox : boxBad box? = false)
    (hsec : c.MeshSections.getD idx.toNat none = some s)
    (htag : s.vertexTypeTag = tag)
    (hguard : ¬(s.bIsDualBuffer = true ∧ V.length ≠ s.VertexBuffer.length))
    (hT : T ≠ []) :
    ∃ c' s', UpdateMeshSection_V_Tri c idx tag V T box? = .ok c'
      ∧ c'.MeshSections.getD idx.toNat none = some s'
      ∧ s'.IndexBuffer = T := by
  have hT' : 0 < T.length := List.length_pos.mpr hT
  have hlen : idx.toNat < c.MeshSections.length := validUpdateIndex_lt c idx hvalid
  unfold UpdateMeshSection_V_Tri
  simp only [hvalid, hbox, hsec, htag, ne_eq, not_true_eq_false, if_false, if_true,
    Bool.false_eq_true, ite_true, ite_false]
  rw [if_neg hguard]
  by_cases hV : 0 < V.length
  · rw [if_pos hV, if_pos hT']
    refine ⟨_, UpdateIndexBuffer (UpdateVertexBuffer s V box?) T, rfl, ?_, rfl⟩
    rw [UpdateSectionInternal_MeshSections]
    exact storeSection_getD _ _ _ hlen
  · rw [if_neg hV, if_pos hT']
    refine ⟨_, UpdateIndexBuffer s T, rfl, ?_, rfl⟩
    rw [UpdateSectionInternal_MeshSections]
    exact storeSection_getD _ _ _ hlen

/-- C4 amended witness: the index buffer of the sample section is replaced by
the length-1 array 7. -/
theorem C4_amended_witness :
    ∃ c' s', UpdateMeshSection_V_Tri singleComp 0 0 [] [7] none = .ok c'
      ∧ c'.MeshSections.getD (0 : Int).toNat none = some s'
      ∧ s'.IndexBuffer = [7] :=
  C4_amended singleComp 0 0 [] [7] none
    (createdSectionVT 0 [v0] [0, 0, 0] none false .Average)
    (by decide) (by decide) (by decide) (by decide) (by decide) (by decide)

/-- C5: every create call that passes validation (non-negative index,
non-empty vertices and triangles, valid box when supplied, and matching
position/vertex-data lengths for dual-buffer creation) leaves a live section
at that index — DoesSectionExist returns true — whose bounding box equals
the explicitly supplied box when one was given, and the axis-aligned
bounding box of the supplied vertex positions otherwise.  Stated for both
the single-buffer and the dual-buffer create overload pairs. -/
theorem C5_create_exists_and_bbox (c : Component) (idx : Int) (tag : Nat)
    (V D : List Vertex) (P : List FVector) (T : List Int) (box? : Option FBox)
    (coll : Bool) (freq : EUpdateFrequency)
    (h0 : 0 ≤ idx) (hV : V ≠ []) (hT : T ≠ []) (hB : boxBad box? = false)
    (hD : D ≠ []) (hPD : P.length = D.length) :
    (∃ c', CreateMeshSection_VT c idx tag V T box? coll freq = .ok c'
      ∧ DoesSectionExist c' idx = true
      ∧ GetSectionBoundingBox c' idx = some (boxOrElse box? (aabbOf (V.map Vertex.pos))))
    ∧ (∃ c', CreateMeshSectionDualBuffer_VT c idx tag P D T box? coll freq = .ok c'
      ∧ DoesSectionExist c' idx = true
      ∧ GetSectionBoundingBox c' idx = some (boxOrElse box? (aabbOf P))) := by
  constructor
  · obtain ⟨c', hc, hg⟩ := createVT_ok c idx tag V T box? coll freq h0 hV hT hB
    refine ⟨c', hc, doesSectionExist_of_getD c' idx _ h0 hg, ?_⟩
    rw [getSectionBoundingBox_of_getD c' idx _ h0 hg, createdSectionVT_box]
  · obtain ⟨c', hc, hg⟩ := createDualVT_ok c idx tag P D T box? coll freq h0 hD hT hPD hB
    refine ⟨c', hc, doesSectionExist_of_getD c' idx _ h0 hg, ?_⟩
    rw [getSectionBoundingBox_of_getD c' idx _ h0 hg, createdSectionDualVT_box]

/-- C5 witness: creating at index 1 of the empty component (which grows the
registry) with one vertex at pX and no explicit box; the dual-buffer create
uses one position pX with one vertex-data entry. -/
theorem C5_witness :
    ((0 : Int) ≤ 1 ∧ ([v1] : List Vertex) ≠ [] ∧ ([0, 0, 0] : List Int) ≠ []
      ∧ boxBad none = false ∧ ([v0] : List Vertex) ≠ []
      ∧ ([pX] : List FVector).length = ([v0] : List Vertex).length)
    ∧ ((∃ c', CreateMeshSection_VT emptyComp 1 0 [v1] [0, 0, 0] none false .Average = .ok c'
        ∧ DoesSectionExist c' 1 = true
        ∧ GetSectionBoundingBox c' 1 = some (boxOrElse none (aabbOf ([v1].map Vertex.pos))))
      ∧ (∃ c', CreateMeshSectionDualBuffer_VT emptyComp 1 0 [pX] [v0] [0, 0, 0] none false .Average
            = .ok c'
        ∧ DoesSectionExist c' 1 = true
        ∧ GetSectionBoundingBox c' 1 = some (boxOrElse none (aabbOf [pX])))) :=
  ⟨by decide,
    C5_create_exists_and_bbox emptyComp 1 0 [v1] [v0] [pX] [0, 0, 0] none false .Average
      (by decide) (by decide) (by decide) (by decide) (by decide) (by decide)⟩

/-- C10: re-creating a section at an index where one already exists installs
a completely fresh section object, fully determined by the call's arguments:
CollisionEnabled and UpdateFrequency are overwritten with the arguments
(whose C++ call-site defaults are false and Average), and the
visibility/shadow flags revert to the constructor defaults instead of
carrying over from the replaced section — for any prior component state. -/
theorem C10_recreate_resets_flags (c : Component) (idx : Int) (tag : Nat)
    (V : List Vertex) (T : List Int) (box? : Option FBox) (coll : Bool)
    (freq : EUpdateFrequency)
    (h0 : 0 ≤ idx) (hV : V ≠ []) (hT : T ≠ []) (hB : boxBad box? = false) :
    ∃ c' s', CreateMeshSection_VT c idx tag V T box? coll freq = .ok c'
      ∧ c'.MeshSections.getD idx.toNat none = some s'
      ∧ s' = createdSectionVT tag V T box? coll freq
      ∧ s'.CollisionEnabled = coll
      ∧ s'.UpdateFrequency = freq
      ∧ s'.bIsVisible = (MeshSection.new tag false).bIsVisible
      ∧ s'.bCastsShadow = (MeshSection.new tag false).bCastsShadow := by
  obtain ⟨c', hc, hg⟩ := createVT_ok c idx tag V T box? coll freq h0 hV hT hB
  exact ⟨c', _, hc, hg, rfl, rfl, rfl, rfl, rfl⟩

/-- C10 witness: re-creating index 0 over the dual-buffer fixture with
collision on and Immediate frequency yields a fresh single-buffer section
with exactly those argument values and default visibility/shadow flags. -/
theorem C10_witness :
    ∃ c' s', CreateMeshSection_VT dualComp1 0 1 [v1] [0, 0, 0] none true .Immediate = .ok c'
      ∧ c'.MeshSections.getD (0 : Int).toNat none = some s'
      ∧ s' = createdSectionVT 1 [v1] [0, 0, 0] none true .Immediate
      ∧ s'.CollisionEnabled = true
      ∧ s'.UpdateFrequency = .Immediate
      ∧ s'.bIsVisible = (MeshSection.new 1 false).bIsVisible
      ∧ s'.bCastsShadow = (MeshSection.new 1 false).bCastsShadow :=
  C10_recreate_resets_flags dualComp1 0 1 [v1] [0, 0, 0] none true .Immediate
    (by decide) (by decide) (by decide) (by decide)

/-- C8: every typed update entry point checks the caller's vertex type
against the tag recorded at section creation
(GetVertexType()->EnsureEquals<VertexType>()) after the index/bounding-box
checks and before touching any buffer; a mismatch makes the call return the
LayoutMismatch rejection with no state produced, so the section is left
unchanged.  Stated for all four typed UpdateMeshSection overload families
(each merged over its optional bounding box). -/
theorem C8_layout_mismatch_rejected (c : Component) (idx : Int) (tag : Nat)
    (V D : List Vertex) (P : List FVector) (T : List Int) (box? : Option FBox) (s : MeshSection)
    (hvalid : validUpdateIndex c idx = true)
    (hbox : boxBad box? = false)
    (hsec : c.MeshSections.getD idx.toNat none = some s)
    (hdual : s.bIsDualBuffer = true)
    (htag : s.vertexTypeTag ≠ tag) :
    UpdateMeshSection_V c idx tag V box? = .layoutMismatch
    ∧ UpdateMeshSection_V_Tri c idx tag V T box? = .layoutMismatch
    ∧ UpdateMeshSection_P_V c idx tag P D box? = .layoutMismatch
    ∧ UpdateMeshSection_P_V_Tri c idx tag P D T box? = .layoutMismatch := by
  have hsec2 : c.MeshSections[idx.toNat]?.getD none = some s := by
    simpa using hsec
  refine ⟨?_, ?_, ?_, ?_⟩
  · unfold UpdateMeshSection_V
    simp [hvalid, hbox, hsec2, htag, hdual]
  · unfold UpdateMeshSection_V_Tri
    simp [hvalid, hbox, hsec2, htag, hdual]
  · unfold UpdateMeshSection_P_V
    simp [hvalid, hbox, hsec2, htag, hdual]
  · unfold UpdateMeshSection_P_V_Tri
    simp [hvalid, hbox, hsec2, htag, hdual]

/-- C8 witness: calling the four typed update entry points on the
dual-buffer fixture (tag 0) with caller tag 1 rejects each call as a layout
mismatch. -/
theorem C8_witness :
    validUpdateIndex dualComp1 0 = true
    ∧ sDual1.vertexTypeTag ≠ 1
    ∧ (UpdateMeshSection_V dualComp1 0 1 [v1] none = .layoutMismatch
      ∧ UpdateMeshSection_V_Tri dualComp1 0 1 [v1] [0, 0, 0] none = .layoutMismatch
      ∧ UpdateMeshSection_P_V dualComp1 0 1 [pX] [v1] none = .layoutMismatch
      ∧ UpdateMeshSection_P_V_Tri dualComp1 0 1 [pX] [v1] [0, 0, 0] none = .layoutMismatch) :=
  ⟨by decide, by decide,
    C8_layout_mismatch_rejected dualComp1 0 1 [v1] [v1] [pX] [0, 0, 0] none sDual1
      (by decide) (by decide) (by decide) (by decide) (by decide)⟩

/-- C9: every update call is atomic with respect to partial application —
each call either fails a check() assertion (producing no state), is rejected
as a layout mismatch (producing no state), returns with the section registry
untouched (the dual-guard rejection and the nothing-supplied no-op), or
returns with every validated non-empty supplied part applied to the stored
section.  No path applies some supplied parts but not others.  Stated for
the vertices+triangles overload pair and the dual-buffer
positions+vertexData+triangles overload pair. -/
theorem C9_update_atomicity (c : Component) (idx : Int) (tag : Nat)
    (V D : List Vertex) (P : List FVector) (T : List Int) (box? : Option FBox) :
    (UpdateMeshSection_V_Tri c idx tag V T box? = .checkFailed
      ∨ UpdateMeshSection_V_Tri c idx tag V T box? = .layoutMismatch
      ∨ (∃ c', UpdateMeshSection_V_Tri c idx tag V T box? = .ok c'
          ∧ c'.MeshSections = c.MeshSections)
      ∨ (∃ c' s', UpdateMeshSection_V_Tri c idx tag V T box? = .ok c'
          ∧ c'.MeshSections.getD idx.toNat none = some s'
          ∧ (V ≠ [] → s'.VertexBuffer = V)
          ∧ (T ≠ [] → s'.IndexBuffer = T)))
    ∧ (UpdateMeshSection_P_V_Tri c idx tag P D T box? = .checkFailed
      ∨ UpdateMeshSection_P_V_Tri c idx tag P D T box? = .layoutMismatch
      ∨ (∃ c', UpdateMeshSection_P_V_Tri c idx tag P D T box? = .ok c'
          ∧ c'.MeshSections = c.MeshSections)
      ∨ (∃ c' s', UpdateMeshSection_P_V_Tri c idx tag P D T box? = .ok c'
          ∧ c'.MeshSections.getD idx.toNat none = some s'
          ∧ (P ≠ [] → s'.PositionBuffer = P)
          ∧ (D ≠ [] → s'.VertexBuffer = D)
          ∧ (T ≠ [] → s'.IndexBuffer = T))) := by
  constructor
  · unfold UpdateMeshSection_V_Tri
    by_cases hvalid : validUpdateIndex c idx = true
    · rw [if_pos hvalid]
      have hlen := validUpdateIndex_lt c idx hvalid
      by_cases hB : boxBad box? = true
      · rw [if_pos hB]
        exact Or.inl rfl
      · rw [if_neg hB]
        cases hsec : c.MeshSections.getD idx.toNat none with
        | none => exact Or.inl rfl
        | some sec =>
          dsimp only
          by_cases htag : sec.vertexTypeTag ≠ tag
          · rw [if_pos htag]
            exact Or.inr (Or.inl rfl)
          · rw [if_neg htag]
            by_cases hg : sec.bIsDualBuffer = true ∧ V.length ≠ sec.VertexBuffer.length
            · rw [if_pos hg]
              exact Or.inr (Or.inr (Or.inl ⟨_, rfl, rfl⟩))
            · rw [if_neg hg]
              by_cases hV : 0 < V.length
              · rw [if_pos hV]
                by_cases hT : 0 < T.length
                · rw [if_pos hT]
                  refine Or.inr (Or.inr (Or.inr ⟨_, UpdateIndexBuffer (UpdateVertexBuffer sec V box?) T, rfl, ?_, fun _ => rfl, fun _ => rfl⟩))
                  rw [UpdateSectionInternal_MeshSections]
                  exact storeSection_getD _ _ _ hlen
                · rw [if_neg hT]
                  refine Or.inr (Or.inr (Or.inr ⟨_, UpdateVertexBuffer sec V box?, rfl, ?_, fun _ => rfl,
                    fun hTne => absurd (List.length_eq_zero.mp (by omega)) hTne⟩))
                  rw [UpdateSectionInternal_MeshSections]
                  exact storeSection_getD _ _ _ hlen
              · rw [if_neg hV]
                have hVe : V = [] := List.length_eq_zero.mp (by omega)
                by_cases hT : 0 < T.length
                · rw [if_pos hT]
                  refine Or.inr (Or.inr (Or.inr ⟨_, UpdateIndexBuffer sec T, rfl, ?_,
                    fun hVne => absurd hVe hVne, fun _ => rfl⟩))
                  rw [UpdateSectionInternal_MeshSections]
                  exact storeSection_getD _ _ _ hlen
                · rw [if_neg hT]
                  exact Or.inr (Or.inr (Or.inl ⟨_, rfl, rfl⟩))
    · rw [if_neg hvalid]
      exact Or.inl rfl
  · unfold UpdateMeshSection_P_V_Tri
    by_cases hvalid : validUpdateIndex c idx = true
    · rw [if_pos hvalid]
      have hlen := validUpdateIndex_lt c idx hvalid
      cases hsec : c.MeshSections.getD idx.toNat none with
      | none => exact Or.inl rfl
      | some sec =>
        dsimp only
        by_cases hdual : sec.bIsDualBuffer = true
        · rw [if_pos hdual]
          by_cases hB : boxBad box? = true
          · rw [if_pos hB]
            exact Or.inl rfl
          · rw [if_neg hB]
            by_cases htag : sec.vertexTypeTag ≠ tag
            · rw [if_pos htag]
              exact Or.inr (Or.inl rfl)
            · rw [if_neg htag]
              by_cases hg : sec.bIsDualBuffer = true ∧ D.length ≠ sec.VertexBuffer.length ∧
                  P.length ≠ D.length
              · rw [if_pos hg]
                exact Or.inr (Or.inr (Or.inl ⟨_, rfl, rfl⟩))
              · rw [if_neg hg]
                by_cases hP : 0 < P.length
                · rw [if_pos hP]
                  by_cases hD : 0 < D.length
                  · rw [if_pos hD]
                    by_cases hT : 0 < T.length
                    · rw [if_pos hT]
                      refine Or.inr (Or.inr (Or.inr ⟨_, UpdateIndexBuffer (UpdateVertexBuffer (UpdateVertexPositionBuffer sec P box?) D none) T, rfl, ?_,
                        fun _ => rfl, fun _ => rfl, fun _ => rfl⟩))
                      rw [UpdateSectionInternal_MeshSections]
                      exact storeSection_getD _ _ _ hlen
                    · rw [if_neg hT]
                      refine Or.inr (Or.inr (Or.inr ⟨_, UpdateVertexBuffer (UpdateVertexPositionBuffer sec P box?) D none, rfl, ?_, fun _ => rfl, fun _ => rfl,
                        fun hTne => absurd (List.length_eq_zero.mp (by omega)) hTne⟩))
                      rw [UpdateSectionInternal_MeshSections]
                      exact storeSection_getD _ _ _ hlen
                  · rw [if_neg hD]
                    have hDe : D = [] := List.length_eq_zero.mp (by omega)
                    by_cases hT : 0 < T.length
                    · rw [if_pos hT]
                      refine Or.inr (Or.inr (Or.inr ⟨_, UpdateIndexBuffer (UpdateVertexPositionBuffer sec P box?) T, rfl, ?_, fun _ => rfl,
                        fun hDne => absurd hDe hDne, fun _ => rfl⟩))
                      rw [UpdateSectionInternal_MeshSections]
                      exact storeSection_getD _ _ _ hlen
                    · rw [if_neg hT]
                      refine Or.inr (Or.inr (Or.inr ⟨_, UpdateVertexPositionBuffer sec P box?, rfl, ?_, fun _ => rfl,
                        fun hDne => absurd hDe hDne,
                        fun hTne => absurd (List.length_eq_zero.mp (by omega)) hTne⟩))
                      rw [UpdateSectionInternal_MeshSections]
                      exact storeSection_getD _ _ _ hlen
                · rw [if_neg hP]
                  have hPe : P = [] := List.length_eq_zero.mp (by omega)
                  by_cases hD : 0 < D.length
                  · rw [if_pos hD]
                    by_cases hT : 0 < T.length
                    · rw [if_pos hT]
                      refine Or.inr (Or.inr (Or.inr ⟨_, UpdateIndexBuffer (UpdateVertexBuffer sec D none) T, rfl, ?_,
                        fun hPne => absurd hPe hPne, fun _ => rfl, fun _ => rfl⟩))
                      rw [UpdateSectionInternal_MeshSections]
                      exact storeSection_getD _ _ _ hlen
                    · rw [if_neg hT]
                      refine Or.inr (Or.inr (Or.inr ⟨_, UpdateVertexBuffer sec D none, rfl, ?_,
                        fun hPne => absurd hPe hPne, fun _ => rfl,
                        fun hTne => absurd (List.length_eq_zero.mp (by omega)) hTne⟩))
                      rw [UpdateSectionInternal_MeshSections]
                      exact storeSection_getD _ _ _ hlen
                  · rw [if_neg hD]
                    have hDe : D = [] := List.length_eq_zero.mp (by omega)
                    by_cases hT : 0 < T.length
                    · rw [if_pos hT]
                      refine Or.inr (Or.inr (Or.inr ⟨_, UpdateIndexBuffer sec T, rfl, ?_,
                        fun hPne => absurd hPe hPne, fun hDne => absurd hDe hDne, fun _ => rfl⟩))
                      rw [UpdateSectionInternal_MeshSections]
                      exact storeSection_getD _ _ _ hlen
                    · rw [if_neg hT]
                      exact Or.inr (Or.inr (Or.inl ⟨_, rfl, rfl⟩))
        · rw [if_neg hdual]
          exact Or.inl rfl
    · rw [if_neg hvalid]
      exact Or.inl rfl

/-- C9 witness: the atomicity disjunction instantiated at the dual-buffer
fixture with a full three-part update of matching lengths and a
vertices+triangles update on the same section. -/
theorem C9_witness :
    (UpdateMeshSection_V_Tri dualComp1 0 0 [v1] [7] none = .checkFailed
      ∨ UpdateMeshSection_V_Tri dualComp1 0 0 [v1] [7] none = .layoutMismatch
      ∨ (∃ c', UpdateMeshSection_V_Tri dualComp1 0 0 [v1] [7] none = .ok c'
          ∧ c'.MeshSections = dualComp1.MeshSections)
      ∨ (∃ c' s', UpdateMeshSection_V_Tri dualComp1 0 0 [v1] [7] none = .ok c'
          ∧ c'.MeshSections.getD (0 : Int).toNat none = some s'
          ∧ (([v1] : List Vertex) ≠ [] → s'.VertexBuffer = [v1])
          ∧ (([7] : List Int) ≠ [] → s'.IndexBuffer = [7])))
    ∧ (UpdateMeshSection_P_V_Tri dualComp1 0 0 [pX] [v1] [7] none = .checkFailed
      ∨ UpdateMeshSection_P_V_Tri dualComp1 0 0 [pX] [v1] [7] none = .layoutMismatch
      ∨ (∃ c', UpdateMeshSection_P_V_Tri dualComp1 0 0 [pX] [v1] [7] none = .ok c'
          ∧ c'.MeshSections = dualComp1.MeshSections)
      ∨ (∃ c' s', UpdateMeshSection_P_V_Tri dualComp1 0 0 [pX] [v1] [7] none = .ok c'
          ∧ c'.MeshSections.getD (0 : Int).toNat none = some s'
          ∧ (([pX] : List FVector) ≠ [] → s'.PositionBuffer = [pX])
          ∧ (([v1] : List Vertex) ≠ [] → s'.VertexBuffer = [v1])
          ∧ (([7] : List Int) ≠ [] → s'.IndexBuffer = [7]))) :=
  C9_update_atomicity dualComp1 0 0 [v1] [v1] [pX] [7] none

lemma mem_insertIfAbsent (i j : Nat) (l : List Nat) :
    i ∈ insertIfAbsent j l ↔ i = j ∨ i ∈ l := by
  unfold insertIfAbsent
  by_cases h : j ∈ l
  · rw [if_pos h]
    constructor
    · exact fun hi => Or.inr hi
    · rintro (rfl | hi)
      · exact h
      · exact hi
  · rw [if_neg h]
    simp [List.mem_append]
    tauto

lemma nodup_insertIfAbsent (j : Nat) (l : List Nat) (h : l.Nodup) :
    (insertIfAbsent j l).Nodup := by
  unfold insertIfAbsent
  by_cases hj : j ∈ l
  · rw [if_pos hj]
    exact h
  · rw [if_neg hj]
    simp [List.nodup_append, h, hj]

lemma touchedFold_nodup (ms : List BatchMut) :
    ∀ acc : List Nat, acc.Nodup →
      (ms.foldl (fun a m => insertIfAbsent m.idx a) acc).Nodup := by
  induction ms with
  | nil => exact fun acc h => h
  | cons m ms ih =>
    intro acc h
    exact ih _ (nodup_insertIfAbsent m.idx acc h)

lemma mem_touchedFold (ms : List BatchMut) :
    ∀ (acc : List Nat) (i : Nat),
      i ∈ ms.foldl (fun a m => insertIfAbsent m.idx a) acc
        ↔ i ∈ acc ∨ i ∈ ms.map BatchMut.idx := by
  induction ms with
  | nil =>
    intro acc i
    simp
  | cons m ms ih =>
    intro acc i
    rw [List.foldl_cons, ih, mem_insertIfAbsent]
    simp only [List.map_cons, List.mem_cons]
    tauto

lemma lastMutFor_isSome (ms : List BatchMut) (i : Nat) (h : i ∈ ms.map BatchMut.idx) :
    ∃ s, lastMutFor ms i = some s := by
  induction ms with
  | nil => simp at h
  | cons m ms ih =>
    rw [List.map_cons, List.mem_cons] at h
    unfold lastMutFor
    cases hms : lastMutFor ms i with
    | some s => exact ⟨s, rfl⟩
    | none =>
      rcases h with h | h
      · exact ⟨m.newSec, by rw [if_pos h.symm]⟩
      · obtain ⟨s, hs⟩ := ih h
        rw [hms] at hs
        cases hs

lemma applyMut_batching_parts (c : Component) (m : BatchMut)
    (hb : c.BatchState.bIsBatching = true) :
    (applyMut c m).BatchState
        = { c.BatchState with touched := insertIfAbsent m.idx c.BatchState.touched }
    ∧ (applyMut c m).syncTrace = c.syncTrace
    ∧ (applyMut c m).MeshSections = c.MeshSections.set m.idx (some m.newSec) := by
  unfold applyMut UpdateSectionInternal storeSection
  rw [if_pos (show ({ c with MeshSections := c.MeshSections.set m.idx (some m.newSec) } :
      Component).BatchState.bIsBatching = true from hb)]
  exact ⟨rfl, rfl, rfl⟩

lemma foldl_applyMut_spec (ms : List BatchMut) :
    ∀ c : Component, c.BatchState.bIsBatching = true →
      (∀ m ∈ ms, m.idx < c.MeshSections.length) →
      (ms.foldl applyMut c).BatchState.bIsBatching = true
      ∧ (ms.foldl applyMut c).BatchState.touched
          = ms.foldl (fun a m => insertIfAbsent m.idx a) c.BatchState.touched
      ∧ (ms.foldl applyMut c).syncTrace = c.syncTrace
      ∧ (ms.foldl applyMut c).MeshSections.length = c.MeshSections.length
      ∧ ∀ i, (ms.foldl applyMut c).MeshSections.getD i none
          = match lastMutFor ms i with
            | some s => some s
            | none => c.MeshSections.getD i none := by
  induction ms with
  | nil =>
    intro c hb hlen
    refine ⟨hb, rfl, rfl, rfl, fun i => ?_⟩
    rfl
  | cons m ms ih =>
    intro c hb hlen
    have hlenm : m.idx < c.MeshSections.length := hlen m (List.mem_cons_self m ms)
    obtain ⟨e1, e2, e3⟩ := applyMut_batching_parts c m hb
    have hb2 : (applyMut c m).BatchState.bIsBatching = true := by
      rw [e1]
      exact hb
    have hlen2 : ∀ m' ∈ ms, m'.idx < (applyMut c m).MeshSections.length := by
      intro m' hm'
      rw [e3, List.length_set]
      exact hlen m' (List.mem_cons_of_mem m hm')
    obtain ⟨q1, q2, q3, q4, q5⟩ := ih (applyMut c m) hb2 hlen2
    rw [List.foldl_cons]
    refine ⟨q1, ?_, ?_, ?_, fun i => ?_⟩
    · rw [q2, e1, List.foldl_cons]
    · rw [q3, e2]
    · rw [q4, e3, List.length_set]
    · rw [q5 i]
      show (match lastMutFor ms i with
        | some s => some s
        | none => (applyMut c m).MeshSections.getD i none)
        = (match lastMutFor (m :: ms) i with
        | some s => some s
        | none => c.MeshSections.getD i none)
      cases hms : lastMutFor ms i with
      | some s =>
        have : lastMutFor (m :: ms) i = some s := by
          unfold lastMutFor
          rw [hms]
        rw [this]
      | none =>
        have hcons : lastMutFor (m :: ms) i
            = if m.idx = i then some m.newSec else none := by
          unfold lastMutFor
          rw [hms]
        by_cases hmi : m.idx = i
        · rw [hcons, if_pos hmi, e3, ← hmi]
          exact getD_set_self c.MeshSections m.idx (some m.newSec) none hlenm
        · rw [hcons, if_neg hmi, e3]
          exact getD_set_ne c.MeshSections i m.idx (some m.newSec) none hmi

/-- C6: inside a beginBatch/endBatch bracket, the mutations m1..mN (touching
M distinct section indices) trigger no render synchronization at all, and
endBatch performs exactly one synchronization per distinct touched index —
the touched set has no duplicates and contains exactly the mutated indices —
each carrying the registry contents at endBatch time, which for every
touched index is the data of its most recent mutation. -/
theorem C6_batch_coalesces (c0 : Component) (ms : List BatchMut)
    (hidle : c0.BatchState.bIsBatching = false)
    (hlen : ∀ m ∈ ms, m.idx < c0.MeshSections.length) :
    (batchMid c0 ms).syncTrace = c0.syncTrace
    ∧ (batchEnd c0 ms).syncTrace
        = c0.syncTrace ++ (touchedOf ms).map
            (fun i => SyncEvent.batchSync i ((batchMid c0 ms).MeshSections.getD i none))
    ∧ (touchedOf ms).Nodup
    ∧ (∀ i, i ∈ touchedOf ms ↔ i ∈ ms.map BatchMut.idx)
    ∧ (∀ i, i ∈ ms.map BatchMut.idx →
        (batchMid c0 ms).MeshSections.getD i none = lastMutFor ms i) := by
  have hb1 : (BeginBatchUpdates c0).BatchState.bIsBatching = true := rfl
  have hlen1 : ∀ m ∈ ms, m.idx < (BeginBatchUpdates c0).MeshSections.length := hlen
  obtain ⟨q1, q2, q3, q4, q5⟩ := foldl_applyMut_spec ms (BeginBatchUpdates c0) hb1 hlen1
  refine ⟨q3, ?_, touchedFold_nodup ms [] List.nodup_nil, fun i => ?_, fun i hi => ?_⟩
  · unfold batchEnd EndBatchUpdates batchMid
    rw [if_pos q1]
    dsimp only
    rw [q3, q2]
    rfl
  · rw [show touchedOf ms = ms.foldl (fun a m => insertIfAbsent m.idx a) [] from rfl,
      mem_touchedFold]
    simp
  · obtain ⟨s, hs⟩ := lastMutFor_isSome ms i hi
    have hq := q5 i
    rw [hs] at hq
    unfold batchMid
    rw [hs]
    exact hq

/-- C6 witness: batching two mutations of section 0 and one of section 1
over the two-section fixture. -/
theorem C6_witness :
    (batchMid twoComp msEx).syncTrace = twoComp.syncTrace
    ∧ (batchEnd twoComp msEx).syncTrace
        = twoComp.syncTrace ++ (touchedOf msEx).map
            (fun i => SyncEvent.batchSync i ((batchMid twoComp msEx).MeshSections.getD i none))
    ∧ (touchedOf msEx).Nodup
    ∧ (∀ i, i ∈ touchedOf msEx ↔ i ∈ msEx.map BatchMut.idx)
    ∧ (∀ i, i ∈ msEx.map BatchMut.idx →
        (batchMid twoComp msEx).MeshSections.getD i none = lastMutFor msEx i) :=
  C6_batch_coalesces twoComp msEx (by decide) (by decide)

lemma applyCollisionMut_clean (c : Component) (m : CollisionMut)
    (h : c.bTickPending = false) :
    (applyCollisionMut c m).bTickPending = true
    ∧ (applyCollisionMut c m).pendingBakeRequests = c.pendingBakeRequests + 1
    ∧ (applyCollisionMut c m).bCollisionDirty = true := by
  cases m <;> simp [applyCollisionMut, MarkCollisionDirty, h]

lemma applyCollisionMut_pending (c : Component) (m : CollisionMut)
    (h : c.bTickPending = true) :
    (applyCollisionMut c m).bTickPending = true
    ∧ (applyCollisionMut c m).pendingBakeRequests = c.pendingBakeRequests
    ∧ (applyCollisionMut c m).bCollisionDirty = true := by
  cases m <;> simp [applyCollisionMut, MarkCollisionDirty, h]

lemma runCollisionMuts_pending (ms : List CollisionMut) :
    ∀ c : Component, c.bTickPending = true → c.bCollisionDirty = true →
      (runCollisionMuts c ms).bTickPending = true
      ∧ (runCollisionMuts c ms).pendingBakeRequests = c.pendingBakeRequests
      ∧ (runCollisionMuts c ms).bCollisionDirty = true := by
  induction ms with
  | nil => exact fun c h hd => ⟨h, rfl, hd⟩
  | cons m ms ih =>
    intro c h hd
    obtain ⟨h1, h2, h3⟩ := applyCollisionMut_pending c m h
    obtain ⟨g1, g2, g3⟩ := ih (applyCollisionMut c m) h1 h3
    exact ⟨g1, g2.trans h2, g3⟩

/-- C7: starting from a clean collision state (no tick registered, no bake
request pending), any non-empty sequence of collision-affecting mutations —
section create/clear/toggle with collision enabled, convex hull add/clear,
collision-only section set — leaves the dirty flag set with exactly one bake
request pending (in particular at most one), no matter how many mutations
occurred before the bake runs. -/
theorem C7_single_pending_bake (c : Component) (m : CollisionMut) (ms : List CollisionMut)
    (hpend : c.bTickPending = false) (hreq : c.pendingBakeRequests = 0) :
    (runCollisionMuts c (m :: ms)).bCollisionDirty = true
    ∧ (runCollisionMuts c (m :: ms)).pendingBakeRequests = 1
    ∧ (runCollisionMuts c (m :: ms)).bTickPending = true := by
  obtain ⟨h1, h2, h3⟩ := applyCollisionMut_clean c m hpend
  obtain ⟨g1, g2, g3⟩ := runCollisionMuts_pending ms (applyCollisionMut c m) h1 h3
  have hrun : runCollisionMuts c (m :: ms) = runCollisionMuts (applyCollisionMut c m) ms := rfl
  rw [hrun]
  exact ⟨g3, by rw [g2, h2, hreq], g1⟩

/-- C7 witness: three collision-affecting mutations from the clean fixture
leave the dirty flag set and exactly one pending bake request. -/
theorem C7_witness :
    singleComp.bTickPending = false ∧ singleComp.pendingBakeRequests = 0
    ∧ ((runCollisionMuts singleComp
          [CollisionMut.sectionDirty, CollisionMut.addConvex [p0],
            CollisionMut.sectionDirty]).bCollisionDirty = true
      ∧ (runCollisionMuts singleComp
          [CollisionMut.sectionDirty, CollisionMut.addConvex [p0],
            CollisionMut.sectionDirty]).pendingBakeRequests = 1
      ∧ (runCollisionMuts singleComp
          [CollisionMut.sectionDirty, CollisionMut.addConvex [p0],
            CollisionMut.sectionDirty]).bTickPending = true) :=
  ⟨by decide, by decide,
    C7_single_pending_bake singleComp CollisionMut.sectionDirty
      [CollisionMut.addConvex [p0], CollisionMut.sectionDirty] (by decide) (by decide)⟩

end RMC

